import Mathlib

/-
Shallow embedding of the chat core of the Smart-boat-rental-system repository
(chat app: models.py, views.py, consumers.py, serializers.py).
The relational store is modelled as an explicit
`Store` value threaded through every operation; Django querysets become list
filters and maps; HTTP/WebSocket handlers become pure functions from a store
and request data to a new store plus a response value.
-/

namespace ChatSpec

/-- A user of the identity system, as seen by the WebSocket handshake
(consumers.py): a primary key and the `is_authenticated` flag checked in
`ChatConsumer.connect`. -/
structure AuthUser where
  id : Nat
  is_authenticated : Bool
  deriving DecidableEq

/-- models.py `ChatRoom`: primary key and the many-to-many `participants`
set, held as the list of participant user primary keys. -/
structure ChatRoom where
  id : Nat
  participants : List Nat
  deriving DecidableEq

/-- models.py `Message`: primary key, owning room id (`room_id`), nullable
sender id (`sender` FK with `on_delete=SET_NULL, null=True`), text content,
server-assigned timestamp (modelled as a Nat tick), and the `is_read` flag
(default False). -/
structure Message where
  id : Nat
  room : Nat
  sender : Option Nat
  content : String
  timestamp : Nat
  is_read : Bool
  deriving DecidableEq

/-- The relational store: the `User`, `ChatRoom` and `Message` tables,
plus the id sequences and a clock supplying `auto_now_add` timestamps.
`users` holds the primary keys of existing user rows. -/
structure Store where
  users : List Nat
  rooms : List ChatRoom
  messages : List Message
  nextMessageId : Nat
  nextRoomId : Nat
  now : Nat
  deriving DecidableEq

/-- Django `ChatRoom.objects.get(pk=rid)`: the first (unique) room row with
the given primary key, or none (`ChatRoom.DoesNotExist`). -/
def findRoom (s : Store) (rid : Nat) : Option ChatRoom :=
  s.rooms.find? (fun r => r.id == rid)

/-- Python `int(c)` on one character: its digit value, if it is a digit. -/
def digitVal (c : Char) : Option Nat :=
  if 48 ≤ c.toNat ∧ c.toNat ≤ 57 then some (c.toNat - 48) else none

/-- Accumulator loop for `parseNat`. -/
def parseDigits : List Char → Nat → Option Nat
  | [], acc => some acc
  | c :: cs, acc =>
    match digitVal c with
    | some d => parseDigits cs (acc * 10 + d)
    | none => none

/-- Python `int(room_id)` on the query-parameter string, raising `ValueError`
(modelled as `none`) when the string is not a number.  Room ids in this system
are nonnegative (Django auto primary keys), so only digit strings are modelled
as parsing successfully; a negative literal would name no room and leads to
the same observable outcome as a parse failure. -/
def parseNat (s : String) : Option Nat :=
  match s.data with
  | [] => none
  | cs => parseDigits cs 0

namespace ChatConsumer

/-- consumers.py `ChatConsumer.is_user_participant`: look the room up by
primary key and test membership of the user's pk in its participant set;
`ChatRoom.DoesNotExist` is caught and yields False.  Total by construction:
every outcome is a boolean, no exception escapes. -/
def is_user_participant (s : Store) (rid : Nat) (u : Nat) : Bool :=
  match findRoom s rid with
  | some room => room.participants.contains u
  | none => false

end ChatConsumer

/-- The row filter of the bulk update shared by views.py
`MessageViewSet.mark_read` (lines 207-212) and consumers.py
`ChatConsumer.mark_messages_as_read` (lines 186-191):
`filter(room_id=rid, is_read=False).exclude(sender=user)`.
Django compiles `.exclude(sender=user)` on the nullable `sender` column to
NOT (sender_id = u AND sender_id IS NOT NULL), so rows with a NULL sender
are kept by the exclude and are eligible: the condition is
`sender ≠ some u`, satisfied by `none`. -/
def markReadPred (rid u : Nat) (m : Message) : Bool :=
  m.room == rid && !m.is_read && m.sender != some u

/-- The effect of the bulk `.update(is_read=True)` on one row. -/
def markOne (rid u : Nat) (m : Message) : Message :=
  if markReadPred rid u m then { m with is_read := true } else m

/-- The shared bulk update: set `is_read` on every matching row and return
the number of rows the UPDATE affected (all matched rows are unread, so
matched = changed). -/
def markReadUpdate (s : Store) (rid u : Nat) : Store × Nat :=
  ({ s with messages := s.messages.map (markOne rid u) },
   (s.messages.filter (markReadPred rid u)).length)

namespace ChatConsumer

/-- consumers.py `ChatConsumer.mark_messages_as_read`: run the shared bulk
update; the pure model cannot raise, so the boolean success result is always
true. -/
def mark_messages_as_read (s : Store) (rid u : Nat) : Store × Bool :=
  ((markReadUpdate s rid u).1, true)

/-- consumers.py `ChatConsumer.save_message`: look the room up; on
`ChatRoom.DoesNotExist` return none, otherwise insert a new message row with
the session's user as sender, a fresh primary key and an `auto_now_add`
timestamp, unread by default. -/
def save_message (s : Store) (rid : Nat) (sender : Nat) (content : String) :
    Store × Option Message :=
  match findRoom s rid with
  | none => (s, none)
  | some _ =>
    let m : Message :=
      { id := s.nextMessageId, room := rid, sender := some sender,
        content := content, timestamp := s.now, is_read := false }
    ({ s with messages := s.messages ++ [m],
              nextMessageId := s.nextMessageId + 1, now := s.now + 1 },
     some m)

end ChatConsumer

/-- An inbound WebSocket frame after `json.loads` in
`ChatConsumer.receive`: either the parse raised `JSONDecodeError`, or it
produced an object whose optional `type` and `message` fields are read with
`.get`. -/
inductive InFrame
  | invalid
  | obj (type : Option String) (message : Option String)
  deriving DecidableEq

/-- An outbound frame written by the consumer: an error object, a
`read_status` confirmation, or the rendered message view broadcast to the
room group (message id, sender id standing for the sender summary, content,
timestamp, room id). -/
inductive OutFrame
  | errorFrame (error : String)
  | readStatus (status : String) (message : String)
  | chatMessage (id : Nat) (sender : Nat) (content : String)
      (timestamp : Nat) (room : Nat)
  deriving DecidableEq

/-- The observable effects of one `ChatConsumer.receive` call: the store
after it, the frames sent back on this connection only (`self.send`), the
payloads sent to the room group (`channel_layer.group_send`), and whether
the handler closed the connection (`receive` contains no `self.close` call,
so this is always false: the session stays Active). -/
structure RecvResult where
  store : Store
  replies : List OutFrame
  broadcasts : List OutFrame
  closedConn : Bool
  deriving DecidableEq

namespace ChatConsumer

/-- consumers.py `ChatConsumer.mark_messages_read`: run the bulk update and
confirm to the requesting connection only. -/
def mark_messages_read (s : Store) (rid u : Nat) : Store × OutFrame :=
  let (s', ok) := mark_messages_as_read s rid u
  (s', if ok then .readStatus "success" "Messages marked as read"
       else .readStatus "error" "Failed to mark messages as read")

/-- consumers.py `ChatConsumer.receive` for a session of user `u` in room
`rid`.  The input is `none` for empty `text_data` (ignored), `invalid` for
text that fails `json.loads` (error reply), otherwise the parsed object.
A `type` of "mark_read" triggers the read-state path; EVERY other value of
`type` (including absence, which defaults to "message", and unknown
strings) falls through to the regular message-handling code, which reads
the `message` field, rejects empty or missing content with an error reply,
and otherwise persists and broadcasts. -/
def receive (s : Store) (u rid : Nat) (text : Option InFrame) : RecvResult :=
  match text with
  | none => ⟨s, [], [], false⟩
  | some .invalid => ⟨s, [.errorFrame "Invalid JSON format."], [], false⟩
  | some (.obj ty msg) =>
    if ty.getD "message" == "mark_read" then
      let (s', reply) := mark_messages_read s rid u
      ⟨s', [reply], [], false⟩
    else
      match msg with
      | none => ⟨s, [.errorFrame "Message content cannot be empty."], [], false⟩
      | some content =>
        if content.isEmpty then
          ⟨s, [.errorFrame "Message content cannot be empty."], [], false⟩
        else
          match save_message s rid u content with
          | (s', none) => ⟨s', [.errorFrame "Failed to save message."], [], false⟩
          | (s', some m) =>
            ⟨s', [], [.chatMessage m.id u m.content m.timestamp m.room], false⟩

/-- The Connection Registry (channel layer groups): pairs of room id and
channel name of each registered live connection. -/
abbrev Registry := List (Nat × Nat)

/-- channel layer `group_add`: register a channel under a room group. -/
def group_add (reg : Registry) (rid chan : Nat) : Registry :=
  reg ++ [(rid, chan)]

/-- The member channels a room group currently holds. -/
def membersOf (reg : Registry) (rid : Nat) : List Nat :=
  (reg.filter (fun p => p.1 == rid)).map (fun p => p.2)

/-- Outcome of `ChatConsumer.connect`: the connection was closed during the
handshake or accepted into the room group. -/
inductive ConnectResult
  | closedConn
  | accepted
  deriving DecidableEq

/-- consumers.py `ChatConsumer.connect`: reject (close, leaving the registry
untouched) when the scope has no user, the user is not authenticated, the
URL route carries no room id, or `is_user_participant` denies; only when all
checks pass is the channel added to the room group and the socket accepted. -/
def connect (s : Store) (reg : Registry) (user : Option AuthUser)
    (roomId : Option Nat) (chan : Nat) : Registry × ConnectResult :=
  match user with
  | none => (reg, .closedConn)
  | some usr =>
    if !usr.is_authenticated then (reg, .closedConn)
    else
      match roomId with
      | none => (reg, .closedConn)
      | some rid =>
        if is_user_participant s rid usr.id then
          (group_add reg rid chan, .accepted)
        else (reg, .closedConn)

end ChatConsumer

/-- The row filter of the read-marking side effect in views.py
`MessageViewSet.get_queryset` (lines 94-100):
`filter(room_id=rid, sender__isnull=False, is_read=False).exclude(sender=user)`.
Unlike the `mark_read` action's filter, this one requires the sender to be
non-null (`sender__isnull=False`), so sender-null rows are NOT touched. -/
def listReadPred (rid u : Nat) (m : Message) : Bool :=
  m.room == rid && m.sender.isSome && !m.is_read && m.sender != some u

/-- The effect of the listing side-effect update on one row. -/
def listMarkOne (rid u : Nat) (m : Message) : Message :=
  if listReadPred rid u m then { m with is_read := true } else m

/-- The listing side-effect bulk update applied to the store. -/
def listMarkReadUpdate (s : Store) (rid u : Nat) : Store :=
  { s with messages := s.messages.map (listMarkOne rid u) }

/-- Django `order_by('timestamp')` on the room's message rows, oldest first
(modelled with a stable insertion sort; SQL guarantees only the timestamp
ordering). -/
def roomMessages (s : Store) (rid : Nat) : List Message :=
  List.insertionSort (fun a b => a.timestamp ≤ b.timestamp)
    (s.messages.filter (fun m => m.room == rid))

namespace MessageViewSet

/-- views.py `MessageViewSet.get_queryset` combined with
`MessageViewSet.list` (which serializes the queryset without pagination):
missing or empty `room` parameter, a non-numeric parameter, a nonexistent
room, or a non-participant caller each yield the empty result (a success,
not an error); otherwise the read-marking bulk update at lines 94-100 runs
first, and the lazily-evaluated queryset built at line 90 is serialized
afterwards, so the returned rows are read from the post-update store,
ordered by timestamp. -/
def list (s : Store) (u : Nat) (roomParam : Option String) :
    Store × List Message :=
  match roomParam with
  | none => (s, [])
  | some p =>
    if p.isEmpty then (s, [])
    else
      match parseNat p with
      | none => (s, [])
      | some rid =>
        match findRoom s rid with
        | none => (s, [])
        | some room =>
          if room.participants.contains u then
            let s' := listMarkReadUpdate s rid u
            (s', roomMessages s' rid)
          else (s, [])

/-- The HTTP response of the `mark_read` action: 400 for a missing or
malformed room parameter, 404 for an unknown room, 403 for a
non-participant, 200 with the affected row count otherwise. -/
inductive MarkReadResponse
  | badRequest (error : String)
  | forbidden (error : String)
  | notFound (error : String)
  | ok (marked_count : Nat)
  deriving DecidableEq

/-- views.py `MessageViewSet.mark_read`: validate the `room` query parameter,
check existence and participation, then run the shared bulk update
(`filter(room_id, is_read=False).exclude(sender=user).update(is_read=True)`)
and return the number of rows changed. -/
def mark_read (s : Store) (u : Nat) (roomParam : Option String) :
    Store × MarkReadResponse :=
  match roomParam with
  | none => (s, .badRequest "Room ID is required")
  | some p =>
    if p.isEmpty then (s, .badRequest "Room ID is required")
    else
      match parseNat p with
      | none => (s, .badRequest "Invalid room ID format")
      | some rid =>
        match findRoom s rid with
        | none => (s, .notFound "Chat room not found")
        | some room =>
          if room.participants.contains u then
            let (s', count) := markReadUpdate s rid u
            (s', .ok count)
          else (s, .forbidden "You are not a participant in this chat room")

end MessageViewSet

namespace ChatRoomSerializer

/-- serializers.py `ChatRoomSerializer.create` together with the
`participant_ids` field validation (`PrimaryKeyRelatedField` resolves each
id against `User.objects.all()` and rejects unknown ids before `create`
runs).  `create` adds the requesting user's pk to the set of listed ids,
fetches the matching user rows, rejects with a validation error when fewer
than two distinct users match, and otherwise creates the room with exactly
those users as participants. -/
def create (s : Store) (creator : Nat) (participant_ids : List Nat) :
    Except String Store :=
  if participant_ids.all (fun i => s.users.contains i) then
    let pks := creator :: participant_ids
    let user_participants := s.users.filter (fun x => pks.contains x)
    if user_participants.length < 2 then
      .error "A chat room requires at least two participants."
    else
      .ok { s with
              rooms := s.rooms ++
                [{ id := s.nextRoomId, participants := user_participants }],
              nextRoomId := s.nextRoomId + 1 }
  else
    .error "Invalid pk - object does not exist."

end ChatRoomSerializer

instance : IsTotal Message (fun a b => a.timestamp ≤ b.timestamp) :=
  ⟨fun a b => Nat.le_total a.timestamp b.timestamp⟩

instance : IsTrans Message (fun a b => a.timestamp ≤ b.timestamp) :=
  ⟨fun _ _ _ h h' => Nat.le_trans h h'⟩

/-! Concrete stores used to evaluate the theorems on explicit inputs. -/

/-- A two-participant room with id 1 (scenario room of the spec). -/
def sampleRoom : ChatRoom := { id := 1, participants := [1, 2] }

/-- A store holding one unread message from user 2 in room 1. -/
def sampleStore : Store :=
  { users := [1, 2], rooms := [sampleRoom],
    messages := [{ id := 1, room := 1, sender := some 2, content := "hi",
                   timestamp := 0, is_read := false }],
    nextMessageId := 2, nextRoomId := 2, now := 1 }

/-- A store holding one unread message whose sender row was deleted
(sender NULL) in room 1. -/
def nullSenderStore : Store :=
  { users := [1, 2], rooms := [sampleRoom],
    messages := [{ id := 1, room := 1, sender := none, content := "hi",
                   timestamp := 0, is_read := false }],
    nextMessageId := 2, nextRoomId := 2, now := 1 }

/-- A store with room 1 and no messages yet. -/
def emptyRoomStore : Store :=
  { users := [1, 2], rooms := [sampleRoom], messages := [],
    nextMessageId := 1, nextRoomId := 2, now := 0 }

/-! Helper lemmas about the bulk-update row functions. -/

theorem contains_iff_mem (l : List Nat) (a : Nat) : l.contains a = true ↔ a ∈ l := by
  simp

theorem markOne_room (rid u : Nat) (m : Message) : (markOne rid u m).room = m.room := by
  unfold markOne; split <;> rfl

theorem markOne_sender (rid u : Nat) (m : Message) :
    (markOne rid u m).sender = m.sender := by
  unfold markOne; split <;> rfl

theorem markOne_of_sender_self (rid u : Nat) (m : Message) (h : m.sender = some u) :
    markOne rid u m = m := by
  unfold markOne
  have : markReadPred rid u m = false := by simp [markReadPred, h]
  simp [this]

theorem markReadPred_is_read_false (rid u : Nat) (m : Message)
    (h : markReadPred rid u m = true) : m.is_read = false := by
  simp only [markReadPred, Bool.and_eq_true, beq_iff_eq, Bool.not_eq_true',
    bne_iff_ne, ne_eq] at h
  exact h.1.2

theorem markOne_is_read (rid u : Nat) (m : Message) (hr : m.room = rid)
    (hs : m.sender ≠ some u) : (markOne rid u m).is_read = true := by
  unfold markOne
  split
  · rfl
  · rename_i h
    cases hread : m.is_read
    · exact absurd (by simp [markReadPred, hr, hread, hs]) h
    · rfl

theorem markReadPred_markOne (rid u : Nat) (m : Message) :
    markReadPred rid u (markOne rid u m) = false := by
  unfold markOne
  split
  · simp [markReadPred]
  · rename_i h
    exact Bool.not_eq_true _ ▸ Bool.of_not_eq_true h

/-- The room parameter string of a request that parses has nonempty text. -/
theorem parseNat_ne_empty (p : String) (rid : Nat) (hp : parseNat p = some rid) :
    p.isEmpty = false := by
  cases hE : p.isEmpty
  · rfl
  · exfalso
    rw [String.isEmpty_iff] at hE
    subst hE
    have h0 : parseNat "" = none := rfl
    rw [h0] at hp
    exact Option.noConfusion hp

/-- Reduction of the `mark_read` action on a request that passes every
guard. -/
theorem mark_read_eq (s : Store) (u rid : Nat) (room : ChatRoom) (p : String)
    (hp : parseNat p = some rid) (hfind : findRoom s rid = some room)
    (hpart : room.participants.contains u = true) :
    MessageViewSet.mark_read s u (some p) =
      ({ s with messages := s.messages.map (markOne rid u) },
        .ok (s.messages.filter (markReadPred rid u)).length) := by
  have hmem : u ∈ room.participants := by simpa using hpart
  simp [MessageViewSet.mark_read, parseNat_ne_empty p rid hp, hp, hfind, hmem,
    markReadUpdate]

/-- The affected-row count of the bulk update equals the number of rows whose
read flag differs between the pre- and post-state. -/
theorem changed_count (rid u : Nat) (l : List Message) :
    ((l.zip (l.map (markOne rid u))).filter
        (fun q => q.1.is_read != q.2.is_read)).length
      = (l.filter (markReadPred rid u)).length := by
  induction l with
  | nil => rfl
  | cons a l ih =>
    simp only [List.map_cons, List.zip_cons_cons, List.filter_cons]
    have hcase : (a.is_read != (markOne rid u a).is_read) = markReadPred rid u a := by
      unfold markOne
      split
      · rename_i h
        simp [markReadPred_is_read_false rid u a h, h]
      · rename_i h
        simp [Bool.of_not_eq_true h]
    rw [hcase]
    by_cases h : markReadPred rid u a = true <;> simp [h, ih]

/-- C2: the membership guard `is_user_participant(R, u)` is true exactly when
u is in R's participant set; when no room with id R exists it returns false.
It is a total boolean function, so no lookup outcome raises to the caller:
absence of the room and absence of permission are both reported as false. -/
theorem isParticipant_iff (s : Store) (rid u : Nat) :
    (ChatConsumer.is_user_participant s rid u = true ↔
      ∃ room, findRoom s rid = some room ∧ u ∈ room.participants)
    ∧ (findRoom s rid = none → ChatConsumer.is_user_participant s rid u = false) := by
  unfold ChatConsumer.is_user_participant
  cases h : findRoom s rid with
  | none => simp [h]
  | some room => simp [h]

/-- Witness for C2: evaluated at the sample store, room 1, user 1. -/
theorem isParticipant_iff_witness :
    (ChatConsumer.is_user_participant sampleStore 1 1 = true ↔
      ∃ room, findRoom sampleStore 1 = some room ∧ 1 ∈ room.participants)
    ∧ (findRoom sampleStore 1 = none →
        ChatConsumer.is_user_participant sampleStore 1 1 = false) :=
  isParticipant_iff sampleStore 1 1

/-- C1: after the mark_read action for room `rid` by reader `u` completes,
every stored message of the room whose sender differs from `some u` —
including sender-null messages, which satisfy `sender ≠ some u` — has its
read flag true; rows whose sender is `u` are returned unchanged (the second
conjunct relates pre- and post-state row by row); and the response carries
exactly the number of rows whose read flag changed. -/
theorem mark_read_marks_others (s : Store) (u rid : Nat) (room : ChatRoom)
    (p : String) (hp : parseNat p = some rid)
    (hfind : findRoom s rid = some room)
    (hpart : room.participants.contains u = true) :
    (∀ m ∈ (MessageViewSet.mark_read s u (some p)).1.messages,
        m.room = rid → m.sender ≠ some u → m.is_read = true)
    ∧ List.Forall₂ (fun m m' : Message =>
        (m.sender = some u → m' = m) ∧ m'.room = m.room ∧ m'.sender = m.sender)
        s.messages (MessageViewSet.mark_read s u (some p)).1.messages
    ∧ (MessageViewSet.mark_read s u (some p)).2 =
        .ok (((s.messages.zip
            (MessageViewSet.mark_read s u (some p)).1.messages).filter
          (fun q => q.1.is_read != q.2.is_read)).length) := by
  rw [mark_read_eq s u rid room p hp hfind hpart]
  refine ⟨?_, ?_, ?_⟩
  · show ∀ m ∈ s.messages.map (markOne rid u),
      m.room = rid → m.sender ≠ some u → m.is_read = true
    intro m hm hr hs
    rcases List.mem_map.mp hm with ⟨m0, _, rfl⟩
    exact markOne_is_read rid u m0
      (by rw [← markOne_room rid u m0]; exact hr)
      (by rw [← markOne_sender rid u m0]; exact hs)
  · show List.Forall₂ _ s.messages (s.messages.map (markOne rid u))
    rw [List.forall₂_map_right_iff, List.forall₂_same]
    intro m _
    exact ⟨fun h => markOne_of_sender_self rid u m h,
      markOne_room rid u m, markOne_sender rid u m⟩
  · show MessageViewSet.MarkReadResponse.ok (s.messages.filter (markReadPred rid u)).length =
      .ok (((s.messages.zip (s.messages.map (markOne rid u))).filter
        (fun q => q.1.is_read != q.2.is_read)).length)
    rw [changed_count]

/-- Witness for C1: evaluated at the sample store (one unread message from
user 2), reader 1, room 1. -/
theorem mark_read_marks_others_witness :
    (∀ m ∈ (MessageViewSet.mark_read sampleStore 1 (some "1")).1.messages,
        m.room = 1 → m.sender ≠ some 1 → m.is_read = true)
    ∧ List.Forall₂ (fun m m' : Message =>
        (m.sender = some 1 → m' = m) ∧ m'.room = m.room ∧ m'.sender = m.sender)
        sampleStore.messages
        (MessageViewSet.mark_read sampleStore 1 (some "1")).1.messages
    ∧ (MessageViewSet.mark_read sampleStore 1 (some "1")).2 =
        .ok (((sampleStore.messages.zip
            (MessageViewSet.mark_read sampleStore 1 (some "1")).1.messages).filter
          (fun q => q.1.is_read != q.2.is_read)).length) :=
  mark_read_marks_others sampleStore 1 1 sampleRoom "1"
    (by decide) (by decide) (by decide)

/-- C7: running the mark_read action twice in a row with no intervening
writes makes the second call report 0 affected rows: the first call leaves
no unread row with sender ≠ u in the room. -/
theorem mark_read_idempotent (s : Store) (u rid : Nat) (room : ChatRoom)
    (p : String) (hp : parseNat p = some rid)
    (hfind : findRoom s rid = some room)
    (hpart : room.participants.contains u = true) :
    (MessageViewSet.mark_read
        (MessageViewSet.mark_read s u (some p)).1 u (some p)).2 = .ok 0 := by
  rw [mark_read_eq s u rid room p hp hfind hpart]
  show (MessageViewSet.mark_read
    { s with messages := s.messages.map (markOne rid u) } u (some p)).2 = .ok 0
  have hfind' : findRoom { s with messages := s.messages.map (markOne rid u) } rid
      = some room := hfind
  rw [mark_read_eq _ u rid room p hp hfind' hpart]
  show MessageViewSet.MarkReadResponse.ok
    ((s.messages.map (markOne rid u)).filter (markReadPred rid u)).length = .ok 0
  have hnil : (s.messages.map (markOne rid u)).filter (markReadPred rid u) = [] := by
    rw [List.filter_eq_nil_iff]
    intro a ha
    rcases List.mem_map.mp ha with ⟨m0, _, rfl⟩
    simp [markReadPred_markOne]
  rw [hnil]
  rfl

theorem listMarkOne_room (rid u : Nat) (m : Message) :
    (listMarkOne rid u m).room = m.room := by
  unfold listMarkOne; split <;> rfl

theorem listMarkOne_sender (rid u : Nat) (m : Message) :
    (listMarkOne rid u m).sender = m.sender := by
  unfold listMarkOne; split <;> rfl

theorem listMarkOne_of_none (rid u : Nat) (m : Message) (h : m.sender = none) :
    listMarkOne rid u m = m := by
  unfold listMarkOne
  have : listReadPred rid u m = false := by simp [listReadPred, h]
  simp [this]

theorem listMarkOne_of_self (rid u : Nat) (m : Message) (h : m.sender = some u) :
    listMarkOne rid u m = m := by
  unfold listMarkOne
  have : listReadPred rid u m = false := by simp [listReadPred, h]
  simp [this]

theorem listMarkOne_is_read (rid u : Nat) (m : Message) (hr : m.room = rid)
    (hn : m.sender ≠ none) (hs : m.sender ≠ some u) :
    (listMarkOne rid u m).is_read = true := by
  unfold listMarkOne
  split
  · rfl
  · rename_i h
    cases hread : m.is_read
    · exact absurd
        (by simp [listReadPred, hr, hread, hs, Option.isSome_iff_ne_none, hn]) h
    · rfl

/-- Reduction of the message-listing request on a request that passes every
guard: the side-effect bulk update runs, then the lazily-evaluated queryset
is serialized against the post-update store. -/
theorem list_eq (s : Store) (u rid : Nat) (room : ChatRoom) (p : String)
    (hp : parseNat p = some rid) (hfind : findRoom s rid = some room)
    (hpart : room.participants.contains u = true) :
    MessageViewSet.list s u (some p) =
      (listMarkReadUpdate s rid u,
        roomMessages (listMarkReadUpdate s rid u) rid) := by
  have hmem : u ∈ room.participants := by simpa using hpart
  simp [MessageViewSet.list, parseNat_ne_empty p rid hp, hp, hfind, hmem]

/-- Witness for C7: evaluated at the sample store, reader 1, room 1. -/
theorem mark_read_idempotent_witness :
    (MessageViewSet.mark_read
        (MessageViewSet.mark_read sampleStore 1 (some "1")).1 1 (some "1")).2 =
      .ok 0 :=
  mark_read_idempotent sampleStore 1 1 sampleRoom "1"
    (by decide) (by decide) (by decide)

/-- C5: the message-listing result is empty (a success body, not an error)
when the room parameter is missing, non-numeric, names no room, or names a
room the caller is not in; otherwise it holds all messages of the room
(a permutation of the room's rows in the post-request store), ordered by
timestamp oldest-first. -/
theorem list_result_cases (s : Store) (u : Nat) (p? : Option String) :
    (p? = none → (MessageViewSet.list s u p?).2 = [])
    ∧ (∀ p, p? = some p → parseNat p = none →
        (MessageViewSet.list s u p?).2 = [])
    ∧ (∀ p rid, p? = some p → parseNat p = some rid → findRoom s rid = none →
        (MessageViewSet.list s u p?).2 = [])
    ∧ (∀ p rid room, p? = some p → parseNat p = some rid →
        findRoom s rid = some room → room.participants.contains u = false →
        (MessageViewSet.list s u p?).2 = [])
    ∧ (∀ p rid room, p? = some p → parseNat p = some rid →
        findRoom s rid = some room → room.participants.contains u = true →
        List.Perm (MessageViewSet.list s u p?).2
            ((MessageViewSet.list s u p?).1.messages.filter
              (fun m => m.room == rid))
          ∧ List.Pairwise (fun a b : Message => a.timestamp ≤ b.timestamp)
              (MessageViewSet.list s u p?).2) := by
  refine ⟨?_, ?_, ?_, ?_, ?_⟩
  · rintro rfl; rfl
  · rintro p rfl hnone
    cases hE : p.isEmpty
    · simp [MessageViewSet.list, hE, hnone]
    · simp [MessageViewSet.list, hE]
  · rintro p rid rfl hp hfind
    simp [MessageViewSet.list, parseNat_ne_empty p rid hp, hp, hfind]
  · rintro p rid room rfl hp hfind hnpart
    have hmem : u ∉ room.participants := fun h => by
      rw [(contains_iff_mem _ _).mpr h] at hnpart
      exact Bool.noConfusion hnpart
    simp [MessageViewSet.list, parseNat_ne_empty p rid hp, hp, hfind, hmem]
  · rintro p rid room rfl hp hfind hpart
    rw [list_eq s u rid room p hp hfind hpart]
    constructor
    · exact List.perm_insertionSort _ _
    · exact List.sorted_insertionSort _ _

/-- Witness for C5: evaluated at the sample store, caller 2, parameter "1". -/
theorem list_result_cases_witness :
    ((some "1" : Option String) = none →
        (MessageViewSet.list sampleStore 2 (some "1")).2 = [])
    ∧ (∀ p, (some "1" : Option String) = some p → parseNat p = none →
        (MessageViewSet.list sampleStore 2 (some "1")).2 = [])
    ∧ (∀ p rid, (some "1" : Option String) = some p → parseNat p = some rid →
        findRoom sampleStore rid = none →
        (MessageViewSet.list sampleStore 2 (some "1")).2 = [])
    ∧ (∀ p rid room, (some "1" : Option String) = some p →
        parseNat p = some rid → findRoom sampleStore rid = some room →
        room.participants.contains 2 = false →
        (MessageViewSet.list sampleStore 2 (some "1")).2 = [])
    ∧ (∀ p rid room, (some "1" : Option String) = some p →
        parseNat p = some rid → findRoom sampleStore rid = some room →
        room.participants.contains 2 = true →
        List.Perm (MessageViewSet.list sampleStore 2 (some "1")).2
            ((MessageViewSet.list sampleStore 2 (some "1")).1.messages.filter
              (fun m => m.room == rid))
          ∧ List.Pairwise (fun a b : Message => a.timestamp ≤ b.timestamp)
              (MessageViewSet.list sampleStore 2 (some "1")).2) :=
  list_result_cases sampleStore 2 (some "1")

/-- Counterexample for C3 as stated: in a store whose only message of room 1
has a NULL sender and is unread, a successful listing by participant 2
returns the message, yet the stored row still has `is_read = false`: the
side-effect update filters on `sender__isnull=False` and skips sender-null
rows, so it is false that no message with sender ≠ caller remains unread. -/
theorem list_null_sender_cex :
    (MessageViewSet.list nullSenderStore 2 (some "1")).2 ≠ []
    ∧ ¬ (∀ m ∈ (MessageViewSet.list nullSenderStore 2 (some "1")).1.messages,
          m.room = 1 → m.sender ≠ some 2 → m.is_read = true) := by
  constructor
  · decide
  · decide

/-- C3 amended: a successful listing for room `rid` by caller `u` marks as
read every message of the room with a NON-NULL sender different from `u`;
sender-null rows (and the caller's own rows) are returned unchanged. -/
theorem list_marks_read_nonnull (s : Store) (u rid : Nat) (room : ChatRoom)
    (p : String) (hp : parseNat p = some rid)
    (hfind : findRoom s rid = some room)
    (hpart : room.participants.contains u = true) :
    (∀ m ∈ (MessageViewSet.list s u (some p)).1.messages,
        m.room = rid → m.sender ≠ none → m.sender ≠ some u → m.is_read = true)
    ∧ List.Forall₂ (fun m m' : Message =>
        (m.sender = none → m' = m) ∧ (m.sender = some u → m' = m))
        s.messages (MessageViewSet.list s u (some p)).1.messages := by
  rw [list_eq s u rid room p hp hfind hpart]
  constructor
  · show ∀ m ∈ s.messages.map (listMarkOne rid u),
      m.room = rid → m.sender ≠ none → m.sender ≠ some u → m.is_read = true
    intro m hm hr hn hs
    rcases List.mem_map.mp hm with ⟨m0, _, rfl⟩
    exact listMarkOne_is_read rid u m0
      (by rw [← listMarkOne_room rid u m0]; exact hr)
      (by rw [← listMarkOne_sender rid u m0]; exact hn)
      (by rw [← listMarkOne_sender rid u m0]; exact hs)
  · show List.Forall₂ _ s.messages (s.messages.map (listMarkOne rid u))
    rw [List.forall₂_map_right_iff, List.forall₂_same]
    intro m _
    exact ⟨fun h => listMarkOne_of_none rid u m h,
      fun h => listMarkOne_of_self rid u m h⟩

/-- Witness for the amended C3: evaluated at the null-sender store, caller 2,
room 1 (the sender-null row is returned unchanged). -/
theorem list_marks_read_nonnull_witness :
    (∀ m ∈ (MessageViewSet.list nullSenderStore 2 (some "1")).1.messages,
        m.room = 1 → m.sender ≠ none → m.sender ≠ some 2 → m.is_read = true)
    ∧ List.Forall₂ (fun m m' : Message =>
        (m.sender = none → m' = m) ∧ (m.sender = some 2 → m' = m))
        nullSenderStore.messages
        (MessageViewSet.list nullSenderStore 2 (some "1")).1.messages :=
  list_marks_read_nonnull nullSenderStore 2 1 sampleRoom "1"
    (by decide) (by decide) (by decide)

/-- C10: in the body of a successful listing response itself, every message
with a non-null sender different from the caller is serialized with its read
flag already true: the bulk update runs before the lazily-evaluated queryset
is read, so the serialized rows come from the post-update store. -/
theorem list_response_reflects_update (s : Store) (u rid : Nat)
    (room : ChatRoom) (p : String) (hp : parseNat p = some rid)
    (hfind : findRoom s rid = some room)
    (hpart : room.participants.contains u = true) :
    ∀ m ∈ (MessageViewSet.list s u (some p)).2,
      m.sender ≠ none → m.sender ≠ some u → m.is_read = true := by
  rw [list_eq s u rid room p hp hfind hpart]
  intro m hm hn hs
  have hm' : m ∈ (listMarkReadUpdate s rid u).messages.filter
      (fun m => m.room == rid) :=
    (List.perm_insertionSort _ _).mem_iff.mp hm
  rcases List.mem_filter.mp hm' with ⟨hmem, hroom⟩
  have hr : m.room = rid := by simpa using hroom
  rcases List.mem_map.mp hmem with ⟨m0, _, rfl⟩
  exact listMarkOne_is_read rid u m0
    (by rw [← listMarkOne_room rid u m0]; exact hr)
    (by rw [← listMarkOne_sender rid u m0]; exact hn)
    (by rw [← listMarkOne_sender rid u m0]; exact hs)

/-- Witness for C10: evaluated at the sample store (one unread message from
user 2), caller 1, room 1: the response row is already read. -/
theorem list_response_reflects_update_witness :
    (⟨1, 1, some 2, "hi", 0, true⟩ : Message) ∈
        (MessageViewSet.list sampleStore 1 (some "1")).2
    ∧ (⟨1, 1, some 2, "hi", 0, true⟩ : Message).is_read = true :=
  ⟨by decide,
    list_response_reflects_update sampleStore 1 1 sampleRoom "1"
      (by decide) (by decide) (by decide)
      (⟨1, 1, some 2, "hi", 0, true⟩ : Message)
      (by decide) (by decide) (by decide)⟩

/-- A frame type other than "mark_read" makes the dispatch test in
`receive` false, whatever the value (absent defaults to "message"). -/
theorem type_not_mark_read (ty : Option String) (hty : ty ≠ some "mark_read") :
    (ty.getD "message" == "mark_read") = false := by
  cases ty with
  | none => decide
  | some t =>
    have ht : t ≠ "mark_read" := fun h => hty (by rw [h])
    simpa using ht

/-- Counterexample for C4 as stated: a frame with the unknown type "foo" and
a nonempty `message` field is NOT ignored — `receive` has no check that the
type is "message", so the frame is persisted and broadcast like an ordinary
send. -/
theorem receive_unknown_type_cex :
    (ChatConsumer.receive emptyRoomStore 1 1
        (some (.obj (some "foo") (some "hi")))).store.messages ≠ []
    ∧ (ChatConsumer.receive emptyRoomStore 1 1
        (some (.obj (some "foo") (some "hi")))).broadcasts ≠ [] := by
  constructor
  · decide
  · decide

/-- C4 amended: a parsed frame whose type is neither "mark_read" nor
"message" is handled exactly like a "message" frame — the unknown type value
is ignored and the `message` field decides the outcome (error reply when
empty or missing, persist-and-broadcast otherwise); the session stays
Active in every case (`receive` never closes the connection). -/
theorem receive_unknown_type_as_message (s : Store) (u rid : Nat)
    (ty msg : Option String) (hty : ty ≠ some "mark_read") :
    ChatConsumer.receive s u rid (some (.obj ty msg)) =
      ChatConsumer.receive s u rid (some (.obj (some "message") msg)) := by
  have h1 := type_not_mark_read ty hty
  have h2 : (((some "message" : Option String).getD "message") == "mark_read")
      = false := by decide
  simp [ChatConsumer.receive, h1, h2]

/-- Witness for the amended C4: a "foo"-typed frame behaves like a
"message"-typed frame at the empty room store. -/
theorem receive_unknown_type_as_message_witness :
    ChatConsumer.receive emptyRoomStore 1 1
        (some (.obj (some "foo") (some "hi"))) =
      ChatConsumer.receive emptyRoomStore 1 1
        (some (.obj (some "message") (some "hi"))) :=
  receive_unknown_type_as_message emptyRoomStore 1 1 (some "foo") (some "hi")
    (by decide)

/-- C6: the handshake registers the channel in the room group exactly when
the scope carries an authenticated user, the route carries a room id, and
the membership guard approves; a rejected handshake leaves the Connection
Registry — hence every room's member set — unchanged. -/
theorem connect_registers_iff (s : Store) (reg : ChatConsumer.Registry)
    (user : Option AuthUser) (rid? : Option Nat) (chan : Nat) :
    ((ChatConsumer.connect s reg user rid? chan).2 =
        ChatConsumer.ConnectResult.closedConn →
      (ChatConsumer.connect s reg user rid? chan).1 = reg)
    ∧ ((ChatConsumer.connect s reg user rid? chan).2 =
        ChatConsumer.ConnectResult.accepted ↔
        ∃ usr, user = some usr ∧ usr.is_authenticated = true ∧
          ∃ rid, rid? = some rid ∧
            ChatConsumer.is_user_participant s rid usr.id = true) := by
  unfold ChatConsumer.connect
  cases user with
  | none => simp
  | some usr =>
    cases hauth : usr.is_authenticated with
    | false => simp [hauth]
    | true =>
      cases rid? with
      | none => simp [hauth]
      | some rid =>
        cases hg : ChatConsumer.is_user_participant s rid usr.id with
        | false => simp [hauth, hg]
        | true => simp [hauth, hg]

/-- Witness for C6: user 3 (authenticated, not a participant of room 1) is
refused and the empty registry stays empty, as in the spec's scenario 3. -/
theorem connect_registers_iff_witness :
    ((ChatConsumer.connect emptyRoomStore [] (some ⟨3, true⟩) (some 1) 99).2 =
        ChatConsumer.ConnectResult.closedConn →
      (ChatConsumer.connect emptyRoomStore [] (some ⟨3, true⟩) (some 1) 99).1 = [])
    ∧ ((ChatConsumer.connect emptyRoomStore [] (some ⟨3, true⟩) (some 1) 99).2 =
        ChatConsumer.ConnectResult.accepted ↔
        ∃ usr, (some (⟨3, true⟩ : AuthUser)) = some usr ∧
          usr.is_authenticated = true ∧
          ∃ rid, (some 1 : Option Nat) = some rid ∧
            ChatConsumer.is_user_participant emptyRoomStore rid usr.id = true) :=
  connect_registers_iff emptyRoomStore [] (some ⟨3, true⟩) (some 1) 99

/-- C8: a send frame with empty or missing content draws the dedicated
empty-content error reply (distinct from the malformed-JSON reply), persists
nothing, broadcasts nothing, does not close the connection, and leaves the
store as it was, so any subsequent frame is processed exactly as if the
empty send had never happened. -/
theorem receive_empty_content (s : Store) (u rid : Nat)
    (ty msg? : Option String) (hty : ty ≠ some "mark_read")
    (hmsg : msg? = none ∨ msg? = some "") :
    ChatConsumer.receive s u rid (some (.obj ty msg?)) =
      ⟨s, [.errorFrame "Message content cannot be empty."], [], false⟩
    ∧ OutFrame.errorFrame "Message content cannot be empty." ≠
        OutFrame.errorFrame "Invalid JSON format."
    ∧ ∀ f, ChatConsumer.receive
          (ChatConsumer.receive s u rid (some (.obj ty msg?))).store u rid f =
        ChatConsumer.receive s u rid f := by
  have h1 := type_not_mark_read ty hty
  have hmain : ChatConsumer.receive s u rid (some (.obj ty msg?)) =
      ⟨s, [.errorFrame "Message content cannot be empty."], [], false⟩ := by
    rcases hmsg with rfl | rfl
    · simp [ChatConsumer.receive, h1]
    · have hE : "".isEmpty = true := by decide
      simp [ChatConsumer.receive, h1, hE]
  refine ⟨hmain, by decide, fun f => by rw [hmain]⟩

/-- Witness for C8: an empty-string send by user 1 at the empty room store. -/
theorem receive_empty_content_witness :
    ChatConsumer.receive emptyRoomStore 1 1
        (some (.obj (some "message") (some ""))) =
      ⟨emptyRoomStore, [.errorFrame "Message content cannot be empty."], [], false⟩
    ∧ OutFrame.errorFrame "Message content cannot be empty." ≠
        OutFrame.errorFrame "Invalid JSON format."
    ∧ ∀ f, ChatConsumer.receive
          (ChatConsumer.receive emptyRoomStore 1 1
            (some (.obj (some "message") (some "")))).store 1 1 f =
        ChatConsumer.receive emptyRoomStore 1 1 f :=
  receive_empty_content emptyRoomStore 1 1 (some "message") (some "")
    (by decide) (Or.inr rfl)

/-- Counterexample for C9 as stated: a request by creator 1 listing the
single participant id 2 is NOT rejected — the creator is added, giving two
distinct participants, and the room is created. -/
theorem create_single_id_cex :
    ChatRoomSerializer.create emptyRoomStore 1 [2] =
      .ok { users := [1, 2],
            rooms := [sampleRoom, { id := 2, participants := [1, 2] }],
            messages := [], nextMessageId := 1, nextRoomId := 3, now := 0 } := by
  rfl

/-- C9 amended: room creation adds the requesting user to the listed
participant ids and rejects with a validation error exactly when fewer than
two distinct existing users result — so a request listing no ids, or only
ids equal to the creator, is rejected and no room is created, while a
request listing one existing id different from the creator succeeds. -/
theorem create_min_two_participants (s : Store) (creator : Nat)
    (ids : List Nat) (hc : s.users.contains creator = true)
    (hv : ids.all (fun i => s.users.contains i) = true) :
    ((s.users.filter (fun x => (creator :: ids).contains x)).length < 2 →
        ChatRoomSerializer.create s creator ids =
          .error "A chat room requires at least two participants.")
    ∧ (2 ≤ (s.users.filter (fun x => (creator :: ids).contains x)).length →
        ChatRoomSerializer.create s creator ids =
          .ok { s with
                  rooms := s.rooms ++
                    [{ id := s.nextRoomId,
                       participants := s.users.filter
                         (fun x => (creator :: ids).contains x) }],
                  nextRoomId := s.nextRoomId + 1 }
        ∧ creator ∈ s.users.filter (fun x => (creator :: ids).contains x)) := by
  have key : ChatRoomSerializer.create s creator ids =
      (if (s.users.filter (fun x => (creator :: ids).contains x)).length < 2 then
        Except.error "A chat room requires at least two participants."
      else
        Except.ok { s with
              rooms := s.rooms ++
                [{ id := s.nextRoomId,
                   participants := s.users.filter
                     (fun x => (creator :: ids).contains x) }],
              nextRoomId := s.nextRoomId + 1 }) := by
    unfold ChatRoomSerializer.create
    rw [hv]
    rfl
  constructor
  · intro hlt
    rw [key, if_pos hlt]
  · intro hge
    have hnlt : ¬ (s.users.filter
        (fun x => (creator :: ids).contains x)).length < 2 :=
      Nat.not_lt.mpr hge
    refine ⟨by rw [key, if_neg hnlt], ?_⟩
    exact List.mem_filter.mpr ⟨(contains_iff_mem _ _).mp hc, by simp⟩

/-- Witness for the amended C9: creator 1 listing no ids at the empty room
store yields one distinct participant, so creation is rejected. -/
theorem create_min_two_participants_witness :
    ((emptyRoomStore.users.filter
        (fun x => ([1] : List Nat).contains x)).length < 2 →
        ChatRoomSerializer.create emptyRoomStore 1 [] =
          .error "A chat room requires at least two participants.")
    ∧ (2 ≤ (emptyRoomStore.users.filter
        (fun x => ([1] : List Nat).contains x)).length →
        ChatRoomSerializer.create emptyRoomStore 1 [] =
          .ok { emptyRoomStore with
                  rooms := emptyRoomStore.rooms ++
                    [{ id := emptyRoomStore.nextRoomId,
                       participants := emptyRoomStore.users.filter
                         (fun x => ([1] : List Nat).contains x) }],
                  nextRoomId := emptyRoomStore.nextRoomId + 1 }
        ∧ 1 ∈ emptyRoomStore.users.filter
            (fun x => ([1] : List Nat).contains x)) :=
  create_min_two_participants emptyRoomStore 1 [] (by decide) (by decide)

end ChatSpec
